import Mathlib

/-!
Verification of the esphome config flow
(`src/homeassistant/components/esphome/config_flow.py`) and of the homekit
light-accessory value mapping exercised by
`src/tests/components/homekit/test_type_lights.py`.

Python strings that the code slices and compares are embedded as `List Char`;
fixed framework labels (step ids, error ids, abort reasons) stay as `String`.
-/

namespace Hikg

/-- Character-list model of a Python string value. -/
abbrev Str := List Char

/-- Python `needle in haystack` substring test on strings, used by
`fetch_device_info` for the check `"resolving" in str(err)`. -/
def strContains (needle : Str) : Str → Bool
  | [] => needle.isEmpty
  | c :: rest => decide (needle <+: c :: rest) || strContains needle rest

/-- Python slice `s[:-n]`: all but the last `n` characters (empty when
`n ≥ len(s)`, like in Python). -/
def pySliceDropRight (l : Str) (n : Nat) : Str :=
  l.take (l.length - n)

/-- Python `a or b` for an optional string `a`: `b` when `a` is `None` or
empty (falsy), otherwise the string held by `a`. -/
def pyOrStr (a : Option Str) (b : Str) : Str :=
  match a with
  | none => b
  | some s => if s.isEmpty then b else s

/-- Relevant fields of `aioesphomeapi.DeviceInfo` as used by the flow:
the node name and the `uses_password` flag. -/
structure DeviceInfo where
  name : Str
  uses_password : Bool
deriving DecidableEq

/-- Outcome of the network interaction performed inside `fetch_device_info`
(`cli.connect(); cli.device_info()`): either a `DeviceInfo` or an
`APIConnectionError` carrying its message string. -/
inductive ConnectOutcome where
  | success (di : DeviceInfo)
  | apiError (msg : Str)
deriving DecidableEq

/-- The data dict of a created config entry, from `_async_get_entry`:
exactly the keys `CONF_HOST`, `CONF_PORT` and `CONF_PASSWORD`
(`config_flow.py` lines 150-155). -/
structure EntryData where
  host : Option Str
  port : Option Nat
  password : Str
deriving DecidableEq

/-- A `FlowResult`: the flow either shows a form (step id, optional inline
`errors["base"]`), creates an entry, or aborts with a reason.
`assertionError` models a failing Python `assert`. -/
inductive FlowResult where
  | showForm (step : String) (error : Option String)
  | createEntry (title : Str) (data : EntryData)
  | abort (reason : String)
  | assertionError
deriving DecidableEq

/-- Mutable state of `EsphomeFlowHandler`: `_host`, `_port`, `_password`
(all `None` in `__init__`), the `_name` context property, and the flow's
unique id set by `async_set_unique_id`. -/
structure FlowState where
  host : Option Str
  port : Option Nat
  password : Option Str
  name : Option Str
  unique_id : Option Str
deriving DecidableEq

/-- `EsphomeFlowHandler.__init__`: host, port and password start as `None`;
no name or unique id is set. -/
def flow_init : FlowState :=
  ⟨none, none, none, none, none⟩

/-- An existing config entry as the zeroconf step observes it: the optional
`CONF_HOST` value of `entry.data`, the entry's `unique_id`, and the runtime
facts read through `DomainData` (`is_entry_loaded(entry)` and the optional
`get_entry_data(entry).device_info.name`, `None` when `device_info` is
`None`). -/
structure ConfigEntry where
  data_host : Option Str
  unique_id : Option Str
  loaded : Bool
  runtime_name : Option Str
deriving DecidableEq

/-- The zeroconf discovery payload fields the flow reads: `hostname`
(e.g. `"livingroom.local."`), `CONF_HOST`, `CONF_PORT`, and the optional
`address` property. -/
structure DiscoveryInfo where
  hostname : Str
  host : Str
  port : Nat
  prop_address : Option Str
deriving DecidableEq

/-- `_set_user_input` (`config_flow.py` lines 64-68): a no-op on `None`,
otherwise stores host and port. -/
def set_user_input (s : FlowState) (user_input : Option (Str × Nat)) : FlowState :=
  match user_input with
  | none => s
  | some (h, p) => { s with host := some h, port := some p }

/-- `fetch_device_info` (`config_flow.py` lines 180-203), as a function of
the network outcome: an `APIConnectionError` whose message contains
`"resolving"` yields `"resolve_error"`, any other `APIConnectionError` yields
`"connection_error"`, success yields the device info.  The Python
`(error, device_info)` pair, whose `None` component is ruled out by the
caller's `assert`, is rendered as `Except`. -/
def fetch_device_info (outcome : ConnectOutcome) : Except String DeviceInfo :=
  match outcome with
  | ConnectOutcome.success di => Except.ok di
  | ConnectOutcome.apiError msg =>
    if strContains "resolving".toList msg then Except.error "resolve_error"
    else Except.error "connection_error"

/-- `try_login` (`config_flow.py` lines 205-224) as a function of whether
`cli.connect(login=True)` succeeds: `None` on success, `"invalid_auth"` on
`APIConnectionError`. -/
def try_login (loginOk : Bool) : Option String :=
  if loginOk then none else some "invalid_auth"

/-- `_async_get_entry` (`config_flow.py` lines 145-156): asserts `_name` is
set and creates an entry titled with the name whose data holds host, port
and `self._password or ""`. -/
def async_get_entry (s : FlowState) : FlowResult :=
  match s.name with
  | none => FlowResult.assertionError
  | some n => FlowResult.createEntry n ⟨s.host, s.port, pyOrStr s.password []⟩

/-- `async_step_authenticate` (`config_flow.py` lines 158-178): with user
input, store the password and try to log in; on login failure the code
recurses with `error="invalid_auth"` and no input, which shows the
authenticate form again with that error; on success it creates the entry.
Without input it shows the authenticate form with the given error. -/
def async_step_authenticate (s : FlowState) (user_input : Option Str)
    (error : Option String) (loginOk : Bool) : FlowState × FlowResult :=
  match user_input with
  | some pw =>
    let s' := { s with password := some pw }
    match try_login loginOk with
    | some err => (s', FlowResult.showForm "authenticate" (some err))
    | none => (s', async_get_entry s')
  | none => (s, FlowResult.showForm "authenticate" error)

/-- `_async_authenticate_or_add` (`config_flow.py` lines 70-84): store the
user input, fetch device info; on error re-show the user form with the
inline error; on success store the name, then either show the authenticate
form (device uses a password) or create the entry. -/
def async_authenticate_or_add (s : FlowState) (user_input : Option (Str × Nat))
    (outcome : ConnectOutcome) : FlowState × FlowResult :=
  let s1 := set_user_input s user_input
  match fetch_device_info outcome with
  | Except.error err => (s1, FlowResult.showForm "user" (some err))
  | Except.ok di =>
    let s2 := { s1 with name := some di.name }
    if di.uses_password then (s2, FlowResult.showForm "authenticate" none)
    else (s2, async_get_entry s2)

/-- Python truthiness of `entry.unique_id` as used by `if not entry.unique_id`
(`config_flow.py` line 130): falsy when `None` or empty. -/
def uniqueIdFalsy (e : ConfigEntry) : Bool :=
  match e.unique_id with
  | none => true
  | some u => u.isEmpty

/-- The `elif` arm of the loop (`config_flow.py` lines 120-126): a loaded
entry is already configured when its runtime device info exists and its
device name equals the discovered node name. -/
def loaded_name_matches (e : ConfigEntry) (node_name : Str) : Bool :=
  if e.loaded then
    match e.runtime_name with
    | some n => decide (n = node_name)
    | none => false
  else false

/-- One iteration of the `already_configured` test (`config_flow.py`
lines 112-126): the entry's stored host equals the discovery `address`
property or the raw discovery host, or else (elif) the loaded-name check. -/
def entry_matches (e : ConfigEntry) (node_name address host : Str) : Bool :=
  match e.data_host with
  | some h =>
    if h = address ∨ h = host then true
    else loaded_name_matches e node_name
  | none => loaded_name_matches e node_name

/-- The backwards-compat update (`config_flow.py` lines 129-135): store the
discovered host in the entry data and set the node name as unique id. -/
def backfill_entry (e : ConfigEntry) (host node_name : Str) : ConfigEntry :=
  { e with data_host := some host, unique_id := some node_name }

/-- The `for entry in self._async_current_entries()` loop (`config_flow.py`
lines 111-137): the first matching entry is backfilled when its unique id is
falsy and the loop aborts (`some` of the updated entry list); `none` when no
entry matches. -/
def zeroconfScan (node_name address host : Str) :
    List ConfigEntry → Option (List ConfigEntry)
  | [] => none
  | e :: rest =>
    if entry_matches e node_name address host then
      some ((if uniqueIdFalsy e then backfill_entry e host node_name else e) :: rest)
    else
      (zeroconfScan node_name address host rest).map (e :: ·)

/-- Modelled from the spec: the framework helper
`ConfigFlow._abort_if_unique_id_configured` (`homeassistant/config_entries.py`,
not under `src/`), called at `config_flow.py` lines 107-109 with
`updates={CONF_HOST: discovery_info[CONF_HOST]}`.  Per the spec, an
already-configured device "aborts setup without creating a duplicate entry",
the persisted entry being "keyed by a stable device identifier": when an
existing entry carries the flow's unique id the helper first applies the
updates to that entry (when not already present) and then aborts.  `some`
holds the updated entry list; `none` means no entry carries the unique id. -/
def abort_if_unique_id_configured (uid new_host : Str) :
    List ConfigEntry → Option (List ConfigEntry)
  | [] => none
  | e :: rest =>
    if e.unique_id = some uid then
      some ((if e.data_host = some new_host then e
             else { e with data_host := some new_host }) :: rest)
    else
      (abort_if_unique_id_configured uid new_host rest).map (e :: ·)

/-- The node name derived at `config_flow.py` lines 100-102:
`local_name = hostname[:-1]`, `node_name = local_name[:-len(".local")]`. -/
def zc_node_name (info : DiscoveryInfo) : Str :=
  pySliceDropRight (pySliceDropRight info.hostname 1) 6

/-- `address = discovery_info["properties"].get("address", local_name)`
(`config_flow.py` line 103). -/
def zc_address (info : DiscoveryInfo) : Str :=
  info.prop_address.getD (pySliceDropRight info.hostname 1)

/-- Combined result of `async_step_zeroconf`: the flow state, the (possibly
updated) config entry list, and the flow result. -/
structure ZeroconfOutcome where
  state : FlowState
  entries : List ConfigEntry
  result : FlowResult
deriving DecidableEq

/-- `async_step_zeroconf` (`config_flow.py` lines 96-143): derive the node
name and address, set the flow unique id, run the unique-id abort check,
then the entry loop; when nothing aborts, store host/port/name and show the
`discovery_confirm` form. -/
def async_step_zeroconf (s : FlowState) (entries : List ConfigEntry)
    (info : DiscoveryInfo) : ZeroconfOutcome :=
  let node_name := zc_node_name info
  let address := zc_address info
  let s1 : FlowState := { s with unique_id := some node_name }
  match abort_if_unique_id_configured node_name info.host entries with
  | some entries' => ⟨s1, entries', FlowResult.abort "already_configured"⟩
  | none =>
    match zeroconfScan node_name address info.host entries with
    | some entries' => ⟨s1, entries', FlowResult.abort "already_configured"⟩
    | none =>
      let s2 : FlowState :=
        { s1 with host := some info.host, port := some info.port,
                  name := some node_name }
      ⟨s2, entries, FlowResult.showForm "discovery_confirm" none⟩

/-- Modelled from the spec: the homekit light brightness mapping of
`update_state` in `homeassistant/components/homekit/type_lights.py` (only its
test `src/tests/components/homekit/test_type_lights.py` is under `src/`).
Spec: "translates a 0-255 brightness level to a 1-100 percentage (never
rounding down to 0 while on)"; "reported percentage = round(b/255*100),
floored to 1 when b>0 (never 0 while device on)".  The platform value may be
an int or a float, embedded as `ℚ`; this is the device-on case. -/
def brightness_to_pct (b : ℚ) : ℤ :=
  if round (b / 255 * 100) = 0 then 1 else round (b / 255 * 100)

/-- Modelled from the spec: the homekit hue/saturation mapping of
`update_state` in `homeassistant/components/homekit/type_lights.py` (not
under `src/`).  Spec: "Hue/saturation pass through unchanged as integers
truncated from platform floats (e.g., (4.5, 9.2) -> (4, 9))"; the components
are nonnegative platform values, for which truncation is the floor. -/
def hs_to_chars (h s : ℚ) : ℤ × ℤ :=
  (⌊h⌋, ⌊s⌋)

/-- Domain service selected by a characteristic write. -/
inductive LightService where
  | turnOn
  | turnOff
deriving DecidableEq

/-- Service call dispatched by `_set_chars`: the service and the optional
`brightness_pct` parameter. -/
structure LightServiceCall where
  service : LightService
  brightness_pct : Option ℤ
deriving DecidableEq

/-- Modelled from the spec: the `_set_chars` dispatch of
`homeassistant/components/homekit/type_lights.py` (not under `src/`),
exercised by `test_light_brightness` lines 143-220.  Per the spec it
"dispatches the appropriate domain service call (turn on/off, with
brightness ... parameters) when the protocol layer reports a characteristic
write": a written `On` value of false selects turn_off; a written
`Brightness` of 0 selects turn_off (brightness 0 means off to the protocol),
any other written brightness becomes the `brightness_pct` parameter; the
service defaults to turn_on. -/
def set_chars (on_value : Option Bool) (brightness : Option ℤ) : LightServiceCall :=
  let service0 : Option LightService :=
    match on_value with
    | some false => some LightService.turnOff
    | _ => none
  match brightness with
  | some b =>
    if b = 0 then ⟨LightService.turnOff, none⟩
    else ⟨service0.getD LightService.turnOn, some b⟩
  | none => ⟨service0.getD LightService.turnOn, none⟩

/-- Zeroconf discovery payload used as concrete input below: hostname
`livingroom.local.`, host `192.168.1.5`, default port, no address property. -/
def zcInfo0 : DiscoveryInfo :=
  ⟨"livingroom.local.".toList, "192.168.1.5".toList, 6053, none⟩

/-- Zeroconf discovery payload with an `address` property, used as concrete
input below. -/
def zcInfoEx : DiscoveryInfo :=
  ⟨"livingroom.local.".toList, "192.168.1.5".toList, 6053, some "10.0.0.7".toList⟩

/-- Entry without unique id whose stored host is the discovery `address`
property. -/
def entEx1 : ConfigEntry := ⟨some "10.0.0.7".toList, none, false, none⟩

/-- Entry without unique id whose stored host is the raw discovery host. -/
def entEx2 : ConfigEntry := ⟨some "192.168.1.5".toList, none, false, none⟩

/-- Entry that already carries the node name as unique id, with an outdated
stored host. -/
def entEx3 : ConfigEntry :=
  ⟨some "10.0.0.7".toList, some "livingroom".toList, false, none⟩

/-- Flow state after a successful device-info fetch of node `livingroom`. -/
def sNamed : FlowState :=
  ⟨some "192.168.1.5".toList, some 6053, none, some "livingroom".toList, none⟩

theorem pySliceDropRight_append (a b : Str) :
    pySliceDropRight (a ++ b) b.length = a := by
  unfold pySliceDropRight
  rw [List.length_append, Nat.add_sub_cancel]
  exact List.take_left a b

theorem zc_node_name_of_local (info : DiscoveryInfo) (name : Str)
    (hn : info.hostname = name ++ ".local.".toList) :
    zc_node_name info = name := by
  have h7 : ".local.".toList = ".local".toList ++ ['.'] := by decide
  have hl1 : (['.'] : Str).length = 1 := rfl
  have hl6 : (".local".toList : Str).length = 6 := by decide
  unfold zc_node_name
  rw [hn, h7, ← List.append_assoc, ← hl1,
    pySliceDropRight_append (name ++ ".local".toList) ['.'], ← hl6,
    pySliceDropRight_append name ".local".toList]

theorem abort_uid_none (uid new_host : Str) (l : List ConfigEntry)
    (h : ∀ e ∈ l, e.unique_id ≠ some uid) :
    abort_if_unique_id_configured uid new_host l = none := by
  induction l with
  | nil => rfl
  | cons e rest ih =>
    have he : e.unique_id ≠ some uid := h e (by simp)
    have hr := ih (fun e' he' => h e' (by simp [he']))
    simp [abort_if_unique_id_configured, he, hr]

theorem abort_uid_found (uid new_host : Str) (pre post : List ConfigEntry)
    (e : ConfigEntry) (hpre : ∀ e' ∈ pre, e'.unique_id ≠ some uid)
    (he : e.unique_id = some uid) (hh : e.data_host ≠ some new_host) :
    abort_if_unique_id_configured uid new_host (pre ++ e :: post) =
      some (pre ++ { e with data_host := some new_host } :: post) := by
  induction pre with
  | nil => simp [abort_if_unique_id_configured, he, hh]
  | cons e1 rest ih =>
    have h1 : e1.unique_id ≠ some uid := hpre e1 (by simp)
    have hr := ih (fun e' he' => hpre e' (by simp [he']))
    simp [abort_if_unique_id_configured, h1, hr]

theorem scan_found (n a h : Str) (pre post : List ConfigEntry) (e : ConfigEntry)
    (hpre : ∀ e' ∈ pre, entry_matches e' n a h = false)
    (he : entry_matches e n a h = true) :
    zeroconfScan n a h (pre ++ e :: post) =
      some (pre ++ (if uniqueIdFalsy e then backfill_entry e h n else e) :: post) := by
  induction pre with
  | nil => simp [zeroconfScan, he]
  | cons e1 rest ih =>
    have h1 := hpre e1 (by simp)
    have hr := ih (fun e' he' => hpre e' (by simp [he']))
    simp [zeroconfScan, h1, hr]

theorem scan_isSome_of_mem (n a h : Str) (l : List ConfigEntry) (e : ConfigEntry)
    (hmem : e ∈ l) (he : entry_matches e n a h = true) :
    ∃ l', zeroconfScan n a h l = some l' := by
  induction l with
  | nil => cases hmem
  | cons e1 rest ih =>
    cases hb : entry_matches e1 n a h with
    | true =>
      exact ⟨(if uniqueIdFalsy e1 then backfill_entry e1 h n else e1) :: rest,
        by simp [zeroconfScan, hb]⟩
    | false =>
      have hmem' : e ∈ rest := by
        cases hmem with
        | head => rw [he] at hb; cases hb
        | tail _ hm => exact hm
      obtain ⟨l', hl'⟩ := ih hmem'
      exact ⟨e1 :: l', by simp [zeroconfScan, hb, hl']⟩

theorem zeroconf_abort_uid (s : FlowState) (entries l' : List ConfigEntry)
    (info : DiscoveryInfo)
    (h : abort_if_unique_id_configured (zc_node_name info) info.host entries =
      some l') :
    async_step_zeroconf s entries info =
      ⟨{ s with unique_id := some (zc_node_name info) }, l',
        FlowResult.abort "already_configured"⟩ := by
  simp only [async_step_zeroconf, h]

theorem zeroconf_abort_scan (s : FlowState) (entries l' : List ConfigEntry)
    (info : DiscoveryInfo)
    (h0 : abort_if_unique_id_configured (zc_node_name info) info.host entries =
      none)
    (h1 : zeroconfScan (zc_node_name info) (zc_address info) info.host entries =
      some l') :
    async_step_zeroconf s entries info =
      ⟨{ s with unique_id := some (zc_node_name info) }, l',
        FlowResult.abort "already_configured"⟩ := by
  simp only [async_step_zeroconf, h0, h1]

theorem zeroconf_confirm (s : FlowState) (entries : List ConfigEntry)
    (info : DiscoveryInfo)
    (h0 : abort_if_unique_id_configured (zc_node_name info) info.host entries =
      none)
    (h1 : zeroconfScan (zc_node_name info) (zc_address info) info.host entries =
      none) :
    async_step_zeroconf s entries info =
      ⟨{ s with
          unique_id := some (zc_node_name info)
          host := some info.host
          port := some info.port
          name := some (zc_node_name info) },
        entries, FlowResult.showForm "discovery_confirm" none⟩ := by
  simp only [async_step_zeroconf, h0, h1]

theorem zeroconf_sets_unique_id (s : FlowState) (entries : List ConfigEntry)
    (info : DiscoveryInfo) :
    (async_step_zeroconf s entries info).state.unique_id =
      some (zc_node_name info) := by
  cases h0 : abort_if_unique_id_configured (zc_node_name info) info.host entries with
  | some l' => rw [zeroconf_abort_uid s entries l' info h0]
  | none =>
    cases h1 : zeroconfScan (zc_node_name info) (zc_address info) info.host entries with
    | some l' => rw [zeroconf_abort_scan s entries l' info h0 h1]
    | none => rw [zeroconf_confirm s entries info h0 h1]

theorem zeroconf_confirm_name (s : FlowState) (entries : List ConfigEntry)
    (info : DiscoveryInfo)
    (h : (async_step_zeroconf s entries info).result =
      FlowResult.showForm "discovery_confirm" none) :
    (async_step_zeroconf s entries info).state.name =
      some (zc_node_name info) := by
  cases h0 : abort_if_unique_id_configured (zc_node_name info) info.host entries with
  | some l' => rw [zeroconf_abort_uid s entries l' info h0] at h; cases h
  | none =>
    cases h1 : zeroconfScan (zc_node_name info) (zc_address info) info.host entries with
    | some l' => rw [zeroconf_abort_scan s entries l' info h0 h1] at h; cases h
    | none => rw [zeroconf_confirm s entries info h0 h1]

/-- Claim C2: a zeroconf payload whose hostname has the form
`<name>.local.` yields node name `<name>` (trailing dot and `.local`
stripped), and that node name becomes the flow's unique id, and its display
name when the flow proceeds to the confirmation form. -/
theorem claim2 (s : FlowState) (entries : List ConfigEntry)
    (info : DiscoveryInfo) (name : Str)
    (hn : info.hostname = name ++ ".local.".toList) :
    zc_node_name info = name ∧
    (async_step_zeroconf s entries info).state.unique_id = some name ∧
    ((async_step_zeroconf s entries info).result =
        FlowResult.showForm "discovery_confirm" none →
      (async_step_zeroconf s entries info).state.name = some name) := by
  have hzc := zc_node_name_of_local info name hn
  exact ⟨hzc, hzc ▸ zeroconf_sets_unique_id s entries info,
    fun h => hzc ▸ zeroconf_confirm_name s entries info h⟩

/-- Witness for C2 at the concrete payload `livingroom.local.` with no
existing entries. -/
theorem claim2_witness :
    zc_node_name zcInfo0 = "livingroom".toList ∧
    (async_step_zeroconf flow_init [] zcInfo0).state.unique_id =
      some "livingroom".toList ∧
    ((async_step_zeroconf flow_init [] zcInfo0).result =
        FlowResult.showForm "discovery_confirm" none →
      (async_step_zeroconf flow_init [] zcInfo0).state.name =
        some "livingroom".toList) :=
  claim2 flow_init [] zcInfo0 "livingroom".toList (by decide)

/-- Claim C3: whenever some existing entry is already configured for the
discovered device (matched by the `address` property, the raw discovery
host, or — for a loaded entry — the device name equal to the node name),
the zeroconf step aborts with `already_configured`; in particular no config
entry is created. -/
theorem claim3 (s : FlowState) (entries : List ConfigEntry)
    (info : DiscoveryInfo) (e : ConfigEntry) (hmem : e ∈ entries)
    (hm : entry_matches e (zc_node_name info) (zc_address info) info.host = true) :
    (async_step_zeroconf s entries info).result =
      FlowResult.abort "already_configured" := by
  cases h0 : abort_if_unique_id_configured (zc_node_name info) info.host entries with
  | some l' => rw [zeroconf_abort_uid s entries l' info h0]
  | none =>
    obtain ⟨l', hl'⟩ :=
      scan_isSome_of_mem (zc_node_name info) (zc_address info) info.host
        entries e hmem hm
    rw [zeroconf_abort_scan s entries l' info h0 hl']

/-- Witness for C3: an entry storing the raw discovery host makes the
discovery abort. -/
theorem claim3_witness :
    (async_step_zeroconf flow_init [entEx2] zcInfo0).result =
      FlowResult.abort "already_configured" :=
  claim3 flow_init [entEx2] zcInfo0 entEx2 (by decide) (by decide)

/-- Counterexample to claim C8 as stated: with two entries both matching the
discovered device and both lacking a unique id, only the first is backfilled;
the second (matching by raw host, unique id absent) is left untouched by the
abort, so not every matching unkeyed entry is backfilled. -/
theorem claim8_counterexample :
    entry_matches entEx2 (zc_node_name zcInfoEx) (zc_address zcInfoEx)
      zcInfoEx.host = true ∧
    entEx2.unique_id = none ∧
    (async_step_zeroconf flow_init [entEx1, entEx2] zcInfoEx).result =
      FlowResult.abort "already_configured" ∧
    (async_step_zeroconf flow_init [entEx1, entEx2] zcInfoEx).entries =
      [⟨some "192.168.1.5".toList, some "livingroom".toList, false, none⟩,
        entEx2] := by
  decide

/-- Claim C8 (amended): when no existing entry's unique id equals the derived
node name, the zeroconf step backfills only the first entry matching by
address, raw host, or loaded device name, and only when that entry's unique
id is missing or empty — setting its unique id to the node name and its host
to the discovered host before aborting; every other entry, and a first
matching entry that already has a unique id, is left unmodified. -/
theorem claim8_amended (s : FlowState) (info : DiscoveryInfo)
    (pre post : List ConfigEntry) (e : ConfigEntry)
    (hnouid : ∀ e' ∈ pre ++ e :: post, e'.unique_id ≠ some (zc_node_name info))
    (hpre : ∀ e' ∈ pre,
      entry_matches e' (zc_node_name info) (zc_address info) info.host = false)
    (hm : entry_matches e (zc_node_name info) (zc_address info) info.host = true) :
    (async_step_zeroconf s (pre ++ e :: post) info).result =
      FlowResult.abort "already_configured" ∧
    (async_step_zeroconf s (pre ++ e :: post) info).entries =
      pre ++ (if uniqueIdFalsy e then
        backfill_entry e info.host (zc_node_name info) else e) :: post := by
  have h0 := abort_uid_none (zc_node_name info) info.host (pre ++ e :: post) hnouid
  have h1 := scan_found (zc_node_name info) (zc_address info) info.host
    pre post e hpre hm
  rw [zeroconf_abort_scan s (pre ++ e :: post) _ info h0 h1]
  exact ⟨rfl, rfl⟩

/-- Witness for the amended C8: a single matching entry without unique id is
backfilled before the abort. -/
theorem claim8_witness :
    (async_step_zeroconf flow_init ([] ++ entEx2 :: []) zcInfo0).result =
      FlowResult.abort "already_configured" ∧
    (async_step_zeroconf flow_init ([] ++ entEx2 :: []) zcInfo0).entries =
      [] ++ (if uniqueIdFalsy entEx2 then
        backfill_entry entEx2 zcInfo0.host (zc_node_name zcInfo0)
        else entEx2) :: [] :=
  claim8_amended flow_init zcInfo0 [] [] entEx2 (by decide) (by decide) (by decide)

/-- Claim C9: when an existing entry carries the derived node name as unique
id and stores a different host, the zeroconf abort is not side-effect free:
that entry's host is updated to the newly discovered host as part of the
abort check. -/
theorem claim9 (s : FlowState) (info : DiscoveryInfo)
    (pre post : List ConfigEntry) (e : ConfigEntry)
    (hpre : ∀ e' ∈ pre, e'.unique_id ≠ some (zc_node_name info))
    (he : e.unique_id = some (zc_node_name info))
    (hh : e.data_host ≠ some info.host) :
    (async_step_zeroconf s (pre ++ e :: post) info).result =
      FlowResult.abort "already_configured" ∧
    (async_step_zeroconf s (pre ++ e :: post) info).entries =
      pre ++ { e with data_host := some info.host } :: post ∧
    (async_step_zeroconf s (pre ++ e :: post) info).entries ≠
      pre ++ e :: post := by
  have h0 := abort_uid_found (zc_node_name info) info.host pre post e hpre he hh
  rw [zeroconf_abort_uid s (pre ++ e :: post) _ info h0]
  refine ⟨rfl, rfl, fun hcontra => ?_⟩
  have h2 := List.append_cancel_left hcontra
  have h3 : ({ e with data_host := some info.host } : ConfigEntry) = e := by
    injection h2
  exact hh (congrArg ConfigEntry.data_host h3).symm

/-- Witness for C9: the entry keyed `livingroom` with stored host `10.0.0.7`
has its host rewritten to `192.168.1.5` by the aborting discovery. -/
theorem claim9_witness :
    (async_step_zeroconf flow_init ([] ++ entEx3 :: []) zcInfo0).result =
      FlowResult.abort "already_configured" ∧
    (async_step_zeroconf flow_init ([] ++ entEx3 :: []) zcInfo0).entries =
      [] ++ { entEx3 with data_host := some zcInfo0.host } :: [] ∧
    (async_step_zeroconf flow_init ([] ++ entEx3 :: []) zcInfo0).entries ≠
      [] ++ entEx3 :: [] :=
  claim9 flow_init zcInfo0 [] [] entEx3 (by decide) (by decide) (by decide)

/-- Claim C4: a device reporting `uses_password` routes to the authenticate
step; in that step a failing login yields the `invalid_auth` error and
re-shows the authenticate form, while a successful login creates the config
entry. -/
theorem claim4 :
    (∀ (s : FlowState) (ui : Option (Str × Nat)) (di : DeviceInfo),
      di.uses_password = true →
      (async_authenticate_or_add s ui (ConnectOutcome.success di)).2 =
        FlowResult.showForm "authenticate" none) ∧
    (∀ (s : FlowState) (pw : Str) (err0 : Option String),
      (async_step_authenticate s (some pw) err0 false).2 =
        FlowResult.showForm "authenticate" (some "invalid_auth")) ∧
    (∀ (s : FlowState) (pw : Str) (err0 : Option String) (n : Str),
      s.name = some n →
      (async_step_authenticate s (some pw) err0 true).2 =
        FlowResult.createEntry n ⟨s.host, s.port, pyOrStr (some pw) []⟩) := by
  refine ⟨fun s ui di hup => ?_, fun s pw err0 => ?_, fun s pw err0 n hn => ?_⟩
  · simp [async_authenticate_or_add, fetch_device_info, hup]
  · simp [async_step_authenticate, try_login]
  · simp [async_step_authenticate, try_login, async_get_entry, hn]

/-- Witness for C4: a correct password on a flow that knows the node name
creates the entry. -/
theorem claim4_witness :
    (async_step_authenticate sNamed (some "pw".toList) none true).2 =
      FlowResult.createEntry "livingroom".toList
        ⟨sNamed.host, sNamed.port, pyOrStr (some "pw".toList) []⟩ :=
  claim4.2.2 sNamed "pw".toList none "livingroom".toList (by decide)

/-- Claim C5: a connection failure while fetching device info is classified
into exactly one of two categories — `resolve_error` when the failure message
reports a name-resolution failure, `connection_error` otherwise — and in both
cases the user form is re-shown with that inline error. -/
theorem claim5 (s : FlowState) (ui : Option (Str × Nat)) (msg : Str) :
    ∃ err,
      (async_authenticate_or_add s ui (ConnectOutcome.apiError msg)).2 =
        FlowResult.showForm "user" (some err) ∧
      (err = "resolve_error" ∨ err = "connection_error") ∧
      (err = "resolve_error" ↔ strContains "resolving".toList msg = true) := by
  cases hc : strContains "resolving".toList msg with
  | true =>
    refine ⟨"resolve_error", ?_, Or.inl rfl, iff_of_true rfl rfl⟩
    simp only [async_authenticate_or_add, fetch_device_info]
    rw [hc]
    rfl
  | false =>
    refine ⟨"connection_error", ?_, Or.inr rfl,
      iff_of_false (by decide) (by simp)⟩
    simp only [async_authenticate_or_add, fetch_device_info]
    rw [hc]
    rfl

/-- Claim C6: a config entry created after a fetch that required no password
carries exactly host, port and password, with the password stored as the
empty string (never absent) when none was collected. -/
theorem claim6 (s : FlowState) (ui : Option (Str × Nat)) (di : DeviceInfo)
    (hpw : s.password = none) (hup : di.uses_password = false) :
    (async_authenticate_or_add s ui (ConnectOutcome.success di)).2 =
      FlowResult.createEntry di.name
        ⟨(set_user_input s ui).host, (set_user_input s ui).port, []⟩ := by
  have hpw1 : (set_user_input s ui).password = none := by
    cases ui with
    | none => exact hpw
    | some hp => exact hpw
  simp [async_authenticate_or_add, fetch_device_info, hup, async_get_entry,
    pyOrStr, hpw1]

/-- Witness for C6: a fresh flow pointed at a password-less device stores the
empty password. -/
theorem claim6_witness :
    (async_authenticate_or_add flow_init (some ("192.168.1.5".toList, 6053))
      (ConnectOutcome.success ⟨"livingroom".toList, false⟩)).2 =
      FlowResult.createEntry "livingroom".toList
        ⟨(set_user_input flow_init (some ("192.168.1.5".toList, 6053))).host,
          (set_user_input flow_init (some ("192.168.1.5".toList, 6053))).port,
          []⟩ :=
  claim6 flow_init (some ("192.168.1.5".toList, 6053))
    ⟨"livingroom".toList, false⟩ (by decide) (by decide)

/-- Claim C1: for brightness `b` in `[0,255]` while the device is on, the
reported percentage equals `round(b/255*100)`, any zero result being floored
to 1 (also at `b = 0`, so the reported percentage is never 0 while on), and
lies in `[1,100]`. -/
theorem claim1 (b : ℚ) (h0 : 0 ≤ b) (h255 : b ≤ 255) :
    (round (b / 255 * 100) ≠ 0 → brightness_to_pct b = round (b / 255 * 100)) ∧
    (round (b / 255 * 100) = 0 → brightness_to_pct b = 1) ∧
    brightness_to_pct b ≠ 0 ∧
    1 ≤ brightness_to_pct b ∧ brightness_to_pct b ≤ 100 := by
  have hq0 : (0 : ℚ) ≤ b / 255 * 100 := by positivity
  have hq100 : b / 255 * 100 ≤ 100 := by
    rw [div_mul_eq_mul_div, div_le_iff₀ (by norm_num : (0 : ℚ) < 255)]
    linarith
  have hr0 : (0 : ℤ) ≤ round (b / 255 * 100) := by
    rw [round_eq]
    exact Int.le_floor.mpr (by push_cast; linarith)
  have hr100 : round (b / 255 * 100) ≤ 100 := by
    rw [round_eq]
    have hle : ⌊b / 255 * 100 + 1 / 2⌋ ≤ ⌊(201 / 2 : ℚ)⌋ :=
      Int.floor_le_floor (by linarith)
    have hval : ⌊(201 / 2 : ℚ)⌋ = (100 : ℤ) := by norm_num
    omega
  by_cases hr : round (b / 255 * 100) = 0
  · exact ⟨fun hne => absurd hr hne, fun _ => by simp [brightness_to_pct, hr],
      by simp [brightness_to_pct, hr], by simp [brightness_to_pct, hr],
      by simp [brightness_to_pct, hr]⟩
  · have hbp : brightness_to_pct b = round (b / 255 * 100) := by
      simp [brightness_to_pct, hr]
    refine ⟨fun _ => hbp, fun heq => absurd heq hr, ?_, ?_, ?_⟩ <;>
      rw [hbp] <;> omega

/-- Witness for C1 at the float brightness 55.66 from the source test
(`test_light_brightness`): the reported percentage is 22. -/
theorem claim1_witness :
    (round ((2783 / 50 : ℚ) / 255 * 100) ≠ 0 →
      brightness_to_pct (2783 / 50) = round ((2783 / 50 : ℚ) / 255 * 100)) ∧
    (round ((2783 / 50 : ℚ) / 255 * 100) = 0 →
      brightness_to_pct (2783 / 50) = 1) ∧
    brightness_to_pct (2783 / 50) ≠ 0 ∧
    1 ≤ brightness_to_pct (2783 / 50) ∧ brightness_to_pct (2783 / 50) ≤ 100 :=
  claim1 (2783 / 50) (by norm_num) (by norm_num)

/-- Brightness values asserted by `test_light_brightness`
(`src/tests/components/homekit/test_type_lights.py` lines 137-243): 255→100,
102→40, 0→1, 55.66→22, 108.4→43, 0.0→1; the modelled mapping reproduces
them all. -/
theorem brightness_matches_light_tests :
    brightness_to_pct 255 = 100 ∧ brightness_to_pct 102 = 40 ∧
    brightness_to_pct 0 = 1 ∧ brightness_to_pct (2783 / 50) = 22 ∧
    brightness_to_pct (542 / 5) = 43 := by
  refine ⟨?_, ?_, ?_, ?_, ?_⟩ <;> norm_num [brightness_to_pct, round_eq]

/-- Claim C7: the hue and saturation characteristic values are the integers
obtained by truncating the platform float pair, with no other scaling: each
component is the greatest integer not exceeding the (nonnegative) input,
integer inputs pass through unchanged, and `(4.5, 9.2)` becomes `(4, 9)` as
asserted by `test_light_set_brightness_and_color`. -/
theorem claim7 (h s : ℚ) (hh : 0 ≤ h) (hs : 0 ≤ s) :
    (((hs_to_chars h s).1 : ℚ) ≤ h ∧ h < ((hs_to_chars h s).1 : ℚ) + 1 ∧
      0 ≤ (hs_to_chars h s).1) ∧
    (((hs_to_chars h s).2 : ℚ) ≤ s ∧ s < ((hs_to_chars h s).2 : ℚ) + 1 ∧
      0 ≤ (hs_to_chars h s).2) ∧
    (∀ (n m : ℤ), hs_to_chars (n : ℚ) (m : ℚ) = (n, m)) ∧
    hs_to_chars (9 / 2) (46 / 5) = (4, 9) := by
  refine ⟨⟨Int.floor_le h, Int.lt_floor_add_one h, Int.floor_nonneg.mpr hh⟩,
    ⟨Int.floor_le s, Int.lt_floor_add_one s, Int.floor_nonneg.mpr hs⟩,
    fun n m => ?_, ?_⟩
  · simp [hs_to_chars, Int.floor_intCast]
  · norm_num [hs_to_chars, Prod.ext_iff]

/-- Witness for C7 at the source test's pair `(4.5, 9.2)`. -/
theorem claim7_witness :
    (((hs_to_chars (9 / 2) (46 / 5)).1 : ℚ) ≤ 9 / 2 ∧
      (9 / 2 : ℚ) < ((hs_to_chars (9 / 2) (46 / 5)).1 : ℚ) + 1 ∧
      0 ≤ (hs_to_chars (9 / 2) (46 / 5)).1) ∧
    (((hs_to_chars (9 / 2) (46 / 5)).2 : ℚ) ≤ 46 / 5 ∧
      (46 / 5 : ℚ) < ((hs_to_chars (9 / 2) (46 / 5)).2 : ℚ) + 1 ∧
      0 ≤ (hs_to_chars (9 / 2) (46 / 5)).2) ∧
    (∀ (n m : ℤ), hs_to_chars (n : ℚ) (m : ℚ) = (n, m)) ∧
    hs_to_chars (9 / 2) (46 / 5) = (4, 9) :=
  claim7 (9 / 2) (46 / 5) (by norm_num) (by norm_num)

/-- Claim C10: a characteristic batch writing brightness 0 dispatches
turn_off regardless of the written `On` value (never turn_on with 0%), while
the nonzero brightness writes of the source test dispatch turn_on with the
written percentage. -/
theorem claim10 :
    (∀ on_value : Option Bool,
      set_chars on_value (some 0) = ⟨LightService.turnOff, none⟩) ∧
    set_chars (some true) (some 20) = ⟨LightService.turnOn, some 20⟩ ∧
    set_chars (some true) (some 40) = ⟨LightService.turnOn, some 40⟩ := by
  refine ⟨fun o => ?_, rfl, rfl⟩
  cases o with
  | none => rfl
  | some b => cases b <;> rfl

end Hikg
